import Mathlib

/-
  Verification of the orchestration logic of
  Code/DEM_PredisturbanceGeneration_AreaVolumeCalc_Batch_NN_Py3.py.

  The script iterates over polygon datasets and their features, sequencing
  calls to an external geoprocessing engine (buffering, clipping,
  raster-to-point conversion, spatial selection, TIN construction,
  natural-neighbour rasterization, raster algebra, zonal statistics, table
  merging).  The development below shallowly embeds the script's own logic:
  file/artifact naming, per-feature iteration and its (absent) error
  handling, argument construction for the engine calls, and the merge
  bookkeeping.  Engine operations are modelled by their documented
  input/output behaviour.
-/

namespace RTSAreaVolume

/-! ## Decimal rendering of identifiers

Models Python `str(rowclean)` for an integer unique identifier, as used in
`slumpname = "_SlumpID_" + str(rowclean)` (script line 139). -/

/-- Decimal digit characters of a natural number, most significant first;
models Python `str` on a nonnegative integer. -/
def natChars (n : ℕ) : List Char :=
  if n = 0 then ['0'] else ((Nat.digits 10 n).map Nat.digitChar).reverse

/-- Decimal character rendering of an integer, with a leading minus sign for
negative values; models Python `str` on an `int`. -/
def intChars (i : ℤ) : List Char :=
  if i < 0 then '-' :: natChars i.natAbs else natChars i.natAbs

/-- String form of `intChars`. -/
def intStr (i : ℤ) : String :=
  String.mk (intChars i)

/-- Every character produced by `natChars` is a decimal digit. -/
theorem natChars_digit {n : ℕ} {c : Char} (hc : c ∈ natChars n) :
    c ∈ ['0', '1', '2', '3', '4', '5', '6', '7', '8', '9'] := by
  unfold natChars at hc
  split at hc
  · rw [List.mem_singleton] at hc
    subst hc
    decide
  · rw [List.mem_reverse] at hc
    obtain ⟨d, hd, rfl⟩ := List.mem_map.mp hc
    have h10 : d < 10 := Nat.digits_lt_base (by norm_num) hd
    interval_cases d <;> decide

theorem natChars_ne_underscore {n : ℕ} {c : Char} (hc : c ∈ natChars n) : c ≠ '_' := by
  intro h
  subst h
  exact absurd (natChars_digit hc) (by decide)

theorem natChars_ne_minus {n : ℕ} {c : Char} (hc : c ∈ natChars n) : c ≠ '-' := by
  intro h
  subst h
  exact absurd (natChars_digit hc) (by decide)

theorem intChars_ne_underscore {i : ℤ} {c : Char} (hc : c ∈ intChars i) : c ≠ '_' := by
  unfold intChars at hc
  split at hc
  · rcases List.mem_cons.mp hc with rfl | hc
    · decide
    · exact natChars_ne_underscore hc
  · exact natChars_ne_underscore hc

/-- Numeric value of a decimal digit character. -/
def charToDigit (c : Char) : ℕ := c.toNat - 48

/-- Decode a most-significant-first digit list back to a natural number. -/
def decodeNat (l : List Char) : ℕ := Nat.ofDigits 10 (l.reverse.map charToDigit)

theorem decodeNat_natChars (n : ℕ) : decodeNat (natChars n) = n := by
  unfold natChars decodeNat
  split
  · simp_all [charToDigit, Nat.ofDigits]
  · rw [List.reverse_reverse, List.map_map]
    have hco : ∀ d ∈ Nat.digits 10 n, (charToDigit ∘ Nat.digitChar) d = d := by
      intro d hd
      have h10 : d < 10 := Nat.digits_lt_base (by norm_num) hd
      interval_cases d <;> decide
    rw [List.map_congr_left hco]
    rw [show (fun d : ℕ => d) = id from rfl, List.map_id]
    exact Nat.ofDigits_digits 10 n

theorem natChars_inj {m n : ℕ} (h : natChars m = natChars n) : m = n := by
  have := congrArg decodeNat h
  rwa [decodeNat_natChars, decodeNat_natChars] at this

/-- Decode a signed decimal character list back to an integer. -/
def decodeInt (l : List Char) : ℤ :=
  if l.head? = some '-' then -(decodeNat l.tail : ℤ) else (decodeNat l : ℤ)

theorem decodeInt_intChars (i : ℤ) : decodeInt (intChars i) = i := by
  by_cases hneg : i < 0
  · have h1 : intChars i = '-' :: natChars i.natAbs := by
      unfold intChars
      rw [if_pos hneg]
    rw [h1]
    simp only [decodeInt, List.head?_cons, List.tail_cons, if_pos, decodeNat_natChars]
    omega
  · have h1 : intChars i = natChars i.natAbs := by
      unfold intChars
      rw [if_neg hneg]
    have hhead : ¬ (natChars i.natAbs).head? = some '-' := by
      intro h
      exact natChars_ne_minus (List.mem_of_mem_head? h) rfl
    rw [h1]
    simp only [decodeInt, hhead, if_false, decodeNat_natChars]
    omega

theorem intChars_inj {i j : ℤ} (h : intChars i = intChars j) : i = j := by
  have := congrArg decodeInt h
  rwa [decodeInt_intChars, decodeInt_intChars] at this

/-- Splitting at a separator character: if two concatenations around an
underscore agree and neither right part contains an underscore, both parts
agree.  The underscore shown is the last underscore of each string. -/
theorem append_underscore_inj :
    ∀ (u : List Char) {v x y : List Char},
      (∀ c ∈ x, c ≠ '_') → (∀ c ∈ y, c ≠ '_') →
      u ++ '_' :: x = v ++ '_' :: y → u = v ∧ x = y := by
  intro u
  induction u with
  | nil =>
    intro v x y hx hy h
    cases v with
    | nil =>
      simp only [List.nil_append, List.cons.injEq] at h
      exact ⟨rfl, h.2⟩
    | cons c v' =>
      simp only [List.nil_append, List.cons_append, List.cons.injEq] at h
      exfalso
      exact hx '_' (h.2 ▸ List.mem_append_right v' (List.mem_cons_self _ _)) rfl
  | cons c u' ih =>
    intro v x y hx hy h
    cases v with
    | nil =>
      simp only [List.cons_append, List.nil_append, List.cons.injEq] at h
      exfalso
      exact hy '_' (h.2.symm ▸ List.mem_append_right u' (List.mem_cons_self _ _)) rfl
    | cons d v' =>
      simp only [List.cons_append, List.cons.injEq] at h
      obtain ⟨rfl, h2⟩ := h
      obtain ⟨h3, h4⟩ := ih hx hy h2
      exact ⟨by rw [h3], h4⟩

/-! ## Path and naming authority

Models the artifact naming of the script: `slumpname = "_SlumpID_" + str(rowclean)`
(line 139) and names such as `clipDEMname = desc.baseName + slumpname + ".tif"`
(line 143), `postpointsDEMname = desc.baseName + slumpname + "_points_post"`
(line 163), and so on: every per-feature artifact name is the dataset base
name, then the slump tag, then a stage-specific suffix. -/

/-- The separator characters of the slump tag, without its final underscore. -/
def sepInit : List Char := ['_', 'S', 'l', 'u', 'm', 'p', 'I', 'D']

/-- Per-feature tag; models line 139 of the script. -/
def slumpname (rowclean : ℤ) : String := "_SlumpID_" ++ intStr rowclean

/-- Per-feature artifact file name: dataset base name, slump tag, stage suffix
(e.g. `".tif"`, `"_points_post"`, `"_predisturbance.tif"`, `"_zs.dbf"`). -/
def artifactFileName (baseName : String) (rowclean : ℤ) (stageSuffix : String) : String :=
  baseName ++ slumpname rowclean ++ stageSuffix

/-- Full artifact path: stage folder, path separator, artifact file name
(models e.g. `clipDEMoutput = clipFolder_joined + "\\" + clipDEMname`, line 144). -/
def artifactPath (folder baseName : String) (rowclean : ℤ) (stageSuffix : String) : String :=
  folder ++ "\\" ++ artifactFileName baseName rowclean stageSuffix

theorem string_data_append (s t : String) : (s ++ t).data = s.data ++ t.data := rfl

theorem artifactFileName_data (b : String) (i : ℤ) (st : String) :
    (artifactFileName b i st).data =
      ((b.data ++ sepInit) ++ ('_' :: intChars i)) ++ st.data := by
  show ((b ++ ("_SlumpID_" ++ intStr i)) ++ st).data = _
  rw [string_data_append, string_data_append, string_data_append]
  congr 1
  rw [List.append_assoc]
  rfl

/-- Core injectivity of the artifact naming at the level of character data. -/
theorem artifactFileName_inj_data {b1 b2 : String} {i1 i2 : ℤ} {st : String}
    (h : artifactFileName b1 i1 st = artifactFileName b2 i2 st) :
    b1 = b2 ∧ i1 = i2 := by
  have h2 := congrArg String.data h
  rw [artifactFileName_data, artifactFileName_data] at h2
  have h3 := List.append_cancel_right h2
  obtain ⟨h4, h5⟩ :=
    append_underscore_inj (b1.data ++ sepInit)
      (fun c hc => intChars_ne_underscore hc)
      (fun c hc => intChars_ne_underscore hc) h3
  refine ⟨String.ext (List.append_cancel_right h4), intChars_inj h5⟩

/-- C8: the artifact-naming scheme embeds the dataset base name and the
feature identifier in every per-feature artifact name and, for any fixed
stage suffix, is injective over (dataset base name, feature identifier):
two distinct pairs never collide, neither as file names nor as full paths
within the stage's folder. -/
theorem C8_artifact_naming_injective (b1 b2 : String) (i1 i2 : ℤ) (st folder : String)
    (h : b1 ≠ b2 ∨ i1 ≠ i2) :
    artifactFileName b1 i1 st ≠ artifactFileName b2 i2 st ∧
      artifactPath folder b1 i1 st ≠ artifactPath folder b2 i2 st := by
  have hname : artifactFileName b1 i1 st ≠ artifactFileName b2 i2 st := by
    intro heq
    obtain ⟨hb, hi⟩ := artifactFileName_inj_data heq
    rcases h with h | h
    · exact h hb
    · exact h hi
  refine ⟨hname, fun heq => hname ?_⟩
  have h2 := congrArg String.data heq
  rw [show artifactPath folder b1 i1 st =
        (folder ++ "\\") ++ artifactFileName b1 i1 st from rfl,
      show artifactPath folder b2 i2 st =
        (folder ++ "\\") ++ artifactFileName b2 i2 st from rfl,
      string_data_append, string_data_append] at h2
  exact String.ext (List.append_cancel_left h2)

/-- Witness for C8: two datasets sharing the feature identifier 7 still get
distinct clipped-DEM artifact names and paths. -/
theorem C8_artifact_naming_injective_witness :
    artifactFileName "SlumpsA" 7 ".tif" ≠ artifactFileName "SlumpsB" 7 ".tif" ∧
      artifactPath "01_ClippedDEMs" "SlumpsA" 7 ".tif" ≠
        artifactPath "01_ClippedDEMs" "SlumpsB" 7 ".tif" :=
  C8_artifact_naming_injective "SlumpsA" "SlumpsB" 7 7 ".tif" "01_ClippedDEMs"
    (Or.inl (by decide))

/-! ## Raster model: difference stage and zonal SUM

The engine's raster-algebra and zonal-statistics calls are modelled by their
documented cell-by-cell behaviour; the script's own contribution is the
operand order of `Minus(clipDEMoutput, predisDEMoutput)` (line 236) and the
absence of any check between clipping and subtraction. -/

/-- Grid metadata of a raster: cell size and lower-left origin. -/
structure GridHeader where
  cellSize : ℚ
  xllcorner : ℚ
  yllcorner : ℚ
  deriving DecidableEq

/-- A raster: grid metadata plus integer-valued cells indexed by
column/row. -/
structure SimpleRaster where
  header : GridHeader
  val : ℤ × ℤ → ℤ

/-- Grid alignment of two rasters: same cell size and same origin. -/
def alignedHeaders (a b : GridHeader) : Bool :=
  a.cellSize == b.cellSize && a.xllcorner == b.xllcorner && a.yllcorner == b.yllcorner

/-- Models the engine's `Minus` raster-algebra call as invoked at line 236:
cell-by-cell subtraction of the second operand from the first, the output on
the first operand's grid.  The engine accepts misaligned operands (it
resamples silently rather than failing). -/
def minusRaster (a b : SimpleRaster) : SimpleRaster :=
  { header := a.header, val := fun c => a.val c - b.val c }

/-- Step 6 of the script (lines 236-238): the difference (DOD) raster is
produced by calling `Minus` on the clipped original and the reconstructed
raster and saving the result.  The script performs no verification of grid
alignment and has no error path here. -/
def dodStage (clipDEM predisDEM : SimpleRaster) : Except String SimpleRaster :=
  Except.ok (minusRaster clipDEM predisDEM)

/-- Zonal SUM statistic of a raster over a zone of cells; models the SUM
metric of `ZonalStatisticsAsTable` (line 269) for the single selected
feature. -/
def zonalSum (zone : Finset (ℤ × ℤ)) (r : SimpleRaster) : ℤ :=
  ∑ c ∈ zone, r.val c

/-- C1: the difference raster is the original clipped raster minus the
reconstructed raster, cell by cell; consequently, for a feature whose
disturbed surface is uniformly lower than the reconstructed surface inside
its footprint, the zonal SUM over the footprint is negative — the sign is
never rectified. -/
theorem C1_dod_sum_negative (clipDEM predisDEM : SimpleRaster)
    (zone : Finset (ℤ × ℤ)) (hzone : zone.Nonempty)
    (hlow : ∀ c ∈ zone, clipDEM.val c < predisDEM.val c) :
    ∃ dod, dodStage clipDEM predisDEM = Except.ok dod ∧
      (∀ c, dod.val c = clipDEM.val c - predisDEM.val c) ∧
      zonalSum zone dod < 0 := by
  refine ⟨minusRaster clipDEM predisDEM, rfl, fun c => rfl, ?_⟩
  refine Finset.sum_neg (fun c hc => ?_) hzone
  have := hlow c hc
  simp only [minusRaster]
  omega

/-- Witness for C1: a flat disturbed surface at 3 m under a reconstructed
surface at 5 m over a two-cell footprint. -/
theorem C1_dod_sum_negative_witness :
    ∃ dod, dodStage ⟨⟨1, 0, 0⟩, fun _ => 3⟩ ⟨⟨1, 0, 0⟩, fun _ => 5⟩ = Except.ok dod ∧
      (∀ c, dod.val c = (⟨⟨1, 0, 0⟩, fun _ => 3⟩ : SimpleRaster).val c -
        (⟨⟨1, 0, 0⟩, fun _ => 5⟩ : SimpleRaster).val c) ∧
      zonalSum {((0 : ℤ), (0 : ℤ)), ((0 : ℤ), (1 : ℤ))} dod < 0 :=
  C1_dod_sum_negative ⟨⟨1, 0, 0⟩, fun _ => 3⟩ ⟨⟨1, 0, 0⟩, fun _ => 5⟩
    {((0 : ℤ), (0 : ℤ)), ((0 : ℤ), (1 : ℤ))} ⟨((0 : ℤ), (0 : ℤ)), by decide⟩
    (fun c _ => show (3 : ℤ) < 5 by decide)

/-! ## Surface reconstruction stage: the rasterization cell size

Line 79 configures `DEMres = 1.0` with a comment instructing the user to
"adjust string CELLSIZE 1.0" in Step 5 by hand when the DEM resolution is
not 1 m; line 218 passes the string literal `"CELLSIZE 1.0"` to
`TinRaster_3d`.  The configured value is never referenced. -/

/-- Sampling-distance argument handed to `TinRaster_3d` (line 218), as a
function of the configured elevation-raster cell size: the script passes the
string literal `"CELLSIZE 1.0"`, ignoring the configuration value. -/
def tinRasterSampleDistance (DEMres : ℚ) : String := "CELLSIZE 1.0"

/-- Numeric cell size encoded in the sampling-distance argument of the
`TinRaster_3d` call: the literal 1.0, for every configured resolution. -/
def tinRasterCellSize (DEMres : ℚ) : ℚ := 1

/-- C2 counterexample: with the elevation-raster cell size configured as
2.0 m, the cell size passed to the natural-neighbour rasterization call is
still 1.0, not the configured value. -/
theorem C2_counterexample :
    tinRasterCellSize 2 ≠ 2 ∧ tinRasterSampleDistance 2 = "CELLSIZE 1.0" := by
  constructor
  · intro h
    exact absurd h (by norm_num [tinRasterCellSize])
  · rfl

/-- C2 amended: the rasterization stage always passes the literal sampling
distance "CELLSIZE 1.0" — numerically a cell size of 1.0 — independent of the
configured elevation-raster cell size. -/
theorem C2_cellsize_hardcoded (DEMres DEMres' : ℚ) :
    tinRasterSampleDistance DEMres = "CELLSIZE 1.0" ∧
      tinRasterCellSize DEMres = 1 ∧
      tinRasterCellSize DEMres = tinRasterCellSize DEMres' :=
  ⟨rfl, rfl, rfl⟩

/-- C6 counterexample: two operand rasters with different cell sizes (1.0 and
2.0 m) are handed to the difference stage, which succeeds; no alignment
verification occurs and no fatal error is raised. -/
theorem C6_counterexample :
    alignedHeaders ⟨1, 0, 0⟩ ⟨2, 0, 0⟩ = false ∧
      (dodStage ⟨⟨1, 0, 0⟩, fun _ => 4⟩ ⟨⟨2, 0, 0⟩, fun _ => 1⟩).isOk = true := by
  constructor
  · decide
  · rfl

/-- C6 amended: no grid-alignment verification precedes the raster
subtraction; for every pair of operand rasters, aligned or not, the
difference stage unconditionally succeeds and produces the cell-by-cell
difference on the first operand's grid. -/
theorem C6_no_alignment_check (clipDEM predisDEM : SimpleRaster) :
    ∃ dod, dodStage clipDEM predisDEM = Except.ok dod ∧
      dod.header = clipDEM.header ∧
      ∀ c, dod.val c = clipDEM.val c - predisDEM.val c :=
  ⟨minusRaster clipDEM predisDEM, rfl, rfl, fun _ => rfl⟩

/-! ## Per-feature loop and (absent) error handling

The loop body of Steps 2-8 (lines 135-315) sequences the engine calls with
no try/except anywhere; any exception raised for one feature propagates and
aborts the remainder of the run. -/

/-- A feature as seen by the reconstruction stage: its unique identifier and
the number of donor points left in its masked point cloud. -/
structure SlumpFeature where
  uid : ℤ
  donorPoints : ℕ
  deriving DecidableEq

/-- Modelled from the spec: the external `CreateTin_3d` / `TinRaster_3d`
calls (lines 217-218) fail with an insufficient-donor-points error when the
masked point cloud has fewer than 3 points (degenerate triangulation); the
engine's failure surfaces as a raised exception. -/
def reconstructSurface (donorPoints : ℕ) : Except String Unit :=
  if donorPoints < 3 then Except.error "insufficient donor points" else Except.ok ()

/-- One iteration of the loop body: the engine calls are sequenced with no
exception handler, so a reconstruction failure propagates; on success the
feature yields the key of its statistics row. -/
def processFeature (f : SlumpFeature) : Except String ℤ :=
  match reconstructSurface f.donorPoints with
  | Except.error e => Except.error e
  | Except.ok _ => Except.ok f.uid

/-- The per-dataset feature loop: features are processed strictly in order
and an exception raised by any feature aborts the remainder of the loop —
the script contains no handler. -/
def processFeatures : List SlumpFeature → Except String (List ℤ)
  | [] => Except.ok []
  | f :: fs =>
    match processFeature f with
    | Except.error e => Except.error e
    | Except.ok r =>
      match processFeatures fs with
      | Except.error e => Except.error e
      | Except.ok rs => Except.ok (r :: rs)

/-- C3 counterexample: in a dataset of three features whose middle feature
has only 2 donor points, processing aborts with the engine error: the bad
feature is not recorded as a skipped feature, the third sibling is never
processed, and no row list is produced, contradicting the claimed
catch-and-skip behaviour. -/
theorem C3_counterexample :
    processFeatures [⟨1, 250⟩, ⟨2, 2⟩, ⟨3, 250⟩] =
        Except.error "insufficient donor points" ∧
      (processFeatures [⟨1, 250⟩, ⟨2, 2⟩, ⟨3, 250⟩]).isOk = false := by
  constructor
  · rfl
  · rfl

/-- C3 amended: a feature whose masked point cloud has fewer than 3 points is
not caught and not skipped: the engine error propagates unhandled and aborts
the dataset's feature loop, so sibling features after it are not processed
and no statistics rows are returned. -/
theorem C3_insufficient_points_aborts (pre post : List SlumpFeature) (f : SlumpFeature)
    (hpre : ∀ g ∈ pre, 3 ≤ g.donorPoints) (hf : f.donorPoints < 3) :
    processFeatures (pre ++ f :: post) = Except.error "insufficient donor points" := by
  induction pre with
  | nil =>
    simp only [List.nil_append, processFeatures, processFeature, reconstructSurface,
      if_pos hf]
  | cons g gs ih =>
    have hg : 3 ≤ g.donorPoints := hpre g (List.mem_cons_self g gs)
    have ih2 := ih fun x hx => hpre x (List.mem_cons_of_mem g hx)
    have hstep : processFeatures ((g :: gs) ++ f :: post) =
        match processFeatures (gs ++ f :: post) with
        | Except.error e => Except.error e
        | Except.ok rs => Except.ok (g.uid :: rs) := by
      simp only [List.cons_append, processFeatures, processFeature, reconstructSurface,
        if_neg (by omega : ¬ g.donorPoints < 3)]
      rfl
    rw [hstep, ih2]

/-- Witness for C3 amended: a healthy first feature followed by a degenerate
one; the loop aborts with the engine error. -/
theorem C3_insufficient_points_aborts_witness :
    processFeatures [⟨4, 9⟩, ⟨5, 0⟩] = Except.error "insufficient donor points" :=
  C3_insufficient_points_aborts [⟨4, 9⟩] [] ⟨5, 0⟩ (by decide) (by decide)

/-! ## Mask stage (Step 4, lines 174-190)

A layer over the whole dataset is filtered by attribute to the current
feature (`"UniqueID" = rowclean`, lines 184-186), the points intersecting
the selected polygon are selected by location (line 189) and deleted
(line 190); the remaining points are the donor cloud. -/

/-- A point of the per-feature point cloud (x, y, elevation). -/
structure CloudPoint where
  x : ℚ
  y : ℚ
  z : ℚ
  deriving DecidableEq

/-- Step 4: select-by-attribute restricts the dataset's polygons to those
whose UniqueID equals `rowclean`; select-by-location then marks every point
intersecting one of the selected polygons, and `DeleteFeatures` removes the
marked points.  A polygon is abstracted by its point-intersection test. -/
def maskStage (points : List CloudPoint) (dataset : List (ℤ × (CloudPoint → Bool)))
    (rowclean : ℤ) : List CloudPoint :=
  let selected := dataset.filter fun q => q.1 == rowclean
  points.filter fun p => ! selected.any fun q => q.2 p

/-- C4: after the mask stage, no retained point intersects the feature's
unbuffered footprint, and exactly the points intersecting that footprint
have been deleted: the retained cloud is precisely the input points not
intersecting the footprint of the feature selected by its identifier. -/
theorem C4_mask_correct (points : List CloudPoint)
    (dataset : List (ℤ × (CloudPoint → Bool))) (rowclean : ℤ) (fp : CloudPoint → Bool)
    (hsel : dataset.filter (fun q => q.1 == rowclean) = [(rowclean, fp)]) :
    (∀ p ∈ maskStage points dataset rowclean, fp p = false) ∧
      (∀ p ∈ points, fp p = false → p ∈ maskStage points dataset rowclean) ∧
      maskStage points dataset rowclean = points.filter (fun p => ! fp p) := by
  have key : maskStage points dataset rowclean = points.filter (fun p => ! fp p) := by
    unfold maskStage
    rw [hsel]
    simp
  refine ⟨?_, ?_, key⟩
  · intro p hp
    rw [key, List.mem_filter] at hp
    simpa using hp.2
  · intro p hp hfp
    rw [key, List.mem_filter]
    exact ⟨hp, by simp [hfp]⟩

/-- Footprint of the feature with identifier 1 in the witness dataset. -/
def fpInsideTest : CloudPoint → Bool := fun p => p.x == 0

/-- Footprint of an overlapping sibling feature in the witness dataset. -/
def fpOtherTest : CloudPoint → Bool := fun p => p.y == 0

/-- Witness for C4: a two-polygon dataset (identifiers 1 and 2) and a
three-point cloud; masking feature 1 removes exactly the points intersecting
its footprint, even though the sibling polygon also intersects them. -/
theorem C4_mask_correct_witness :
    (∀ p ∈ maskStage [⟨0, 0, 5⟩, ⟨0, 1, 6⟩, ⟨2, 0, 7⟩]
        [(1, fpInsideTest), (2, fpOtherTest)] 1, fpInsideTest p = false) ∧
      (∀ p ∈ [(⟨0, 0, 5⟩ : CloudPoint), ⟨0, 1, 6⟩, ⟨2, 0, 7⟩], fpInsideTest p = false →
        p ∈ maskStage [⟨0, 0, 5⟩, ⟨0, 1, 6⟩, ⟨2, 0, 7⟩]
          [(1, fpInsideTest), (2, fpOtherTest)] 1) ∧
      maskStage [⟨0, 0, 5⟩, ⟨0, 1, 6⟩, ⟨2, 0, 7⟩]
          [(1, fpInsideTest), (2, fpOtherTest)] 1 =
        List.filter (fun p => ! fpInsideTest p) [⟨0, 0, 5⟩, ⟨0, 1, 6⟩, ⟨2, 0, 7⟩] :=
  C4_mask_correct [⟨0, 0, 5⟩, ⟨0, 1, 6⟩, ⟨2, 0, 7⟩]
    [(1, fpInsideTest), (2, fpOtherTest)] 1 fpInsideTest rfl

/-! ## Merge bookkeeping (Steps 7-12)

Each successfully processed feature yields a one-row area/volume table
(line 269) and a one-row RMSE table (line 312); Step 9 concatenates the
per-feature tables of a dataset (line 340), Step 10 likewise for RMSE
(line 380), and Steps 11-12 concatenate the per-dataset tables across the
batch (lines 410, 431). -/

/-- One row of a zonal-statistics table, keyed by the feature's unique
identifier. -/
structure StatsRow where
  uid : ℤ
  value : ℚ
  deriving DecidableEq

/-- A successfully processed feature with its two statistics outcomes: the
zonal SUM of its difference raster and the zonal MEAN of its squared
difference raster. -/
structure ProcessedFeature where
  uid : ℤ
  dodSum : ℚ
  dodSqMean : ℚ

/-- Area/volume table of one feature: `ZonalStatisticsAsTable` on the single
selected zone (line 269) yields one row keyed by the feature's UniqueID. -/
def featureStatsTable (f : ProcessedFeature) : List StatsRow := [⟨f.uid, f.dodSum⟩]

/-- RMSE table of one feature (line 312): one row with the MEAN of the
squared difference raster. -/
def featureRmseTable (f : ProcessedFeature) : List StatsRow := [⟨f.uid, f.dodSqMean⟩]

/-- Step 9: merged area/volume table of one dataset. -/
def datasetStatsMerged : List ProcessedFeature → List StatsRow
  | [] => []
  | f :: fs => featureStatsTable f ++ datasetStatsMerged fs

/-- Step 10: merged RMSE table of one dataset. -/
def datasetRmseMerged : List ProcessedFeature → List StatsRow
  | [] => []
  | f :: fs => featureRmseTable f ++ datasetRmseMerged fs

/-- Step 11: cross-dataset merged area/volume table. -/
def batchStatsMerged : List (List ProcessedFeature) → List StatsRow
  | [] => []
  | ds :: rest => datasetStatsMerged ds ++ batchStatsMerged rest

/-- Step 12: cross-dataset merged RMSE table. -/
def batchRmseMerged : List (List ProcessedFeature) → List StatsRow
  | [] => []
  | ds :: rest => datasetRmseMerged ds ++ batchRmseMerged rest

/-- Unique identifiers of all successfully processed features of the batch,
in processing order. -/
def batchUids : List (List ProcessedFeature) → List ℤ
  | [] => []
  | ds :: rest => ds.map ProcessedFeature.uid ++ batchUids rest

/-- Number of rows of a statistics table keyed by a given identifier. -/
def rowCount (t : List StatsRow) (uid : ℤ) : ℕ :=
  t.countP fun r => r.uid == uid

theorem rowCount_datasetStats (ds : List ProcessedFeature) (u : ℤ) :
    rowCount (datasetStatsMerged ds) u = (ds.map ProcessedFeature.uid).count u := by
  induction ds with
  | nil => rfl
  | cons f fs ih =>
    simp only [datasetStatsMerged, featureStatsTable, rowCount, List.countP_append,
      List.countP_cons, List.countP_nil, List.map_cons, List.count_cons]
    rw [rowCount] at ih
    omega

theorem rowCount_datasetRmse (ds : List ProcessedFeature) (u : ℤ) :
    rowCount (datasetRmseMerged ds) u = (ds.map ProcessedFeature.uid).count u := by
  induction ds with
  | nil => rfl
  | cons f fs ih =>
    simp only [datasetRmseMerged, featureRmseTable, rowCount, List.countP_append,
      List.countP_cons, List.countP_nil, List.map_cons, List.count_cons]
    rw [rowCount] at ih
    omega

theorem rowCount_batchStats (batch : List (List ProcessedFeature)) (u : ℤ) :
    rowCount (batchStatsMerged batch) u = (batchUids batch).count u := by
  induction batch with
  | nil => rfl
  | cons ds rest ih =>
    simp only [batchStatsMerged, batchUids, rowCount, List.countP_append, List.count_append]
    rw [rowCount] at ih
    rw [ih]
    have := rowCount_datasetStats ds u
    rw [rowCount] at this
    rw [this]

theorem rowCount_batchRmse (batch : List (List ProcessedFeature)) (u : ℤ) :
    rowCount (batchRmseMerged batch) u = (batchUids batch).count u := by
  induction batch with
  | nil => rfl
  | cons ds rest ih =>
    simp only [batchRmseMerged, batchUids, rowCount, List.countP_append, List.count_append]
    rw [rowCount] at ih
    rw [ih]
    have := rowCount_datasetRmse ds u
    rw [rowCount] at this
    rw [this]

/-- C5: with identifiers unique across the batch, every successfully
processed feature contributes exactly one row keyed by its identifier to the
merged area/volume table and exactly one row to the merged RMSE table, and
an identifier belonging to no processed feature keys no row in either. -/
theorem C5_one_row_per_feature (batch : List (List ProcessedFeature))
    (hnodup : (batchUids batch).Nodup) (uid : ℤ) :
    rowCount (batchStatsMerged batch) uid = (if uid ∈ batchUids batch then 1 else 0) ∧
      rowCount (batchRmseMerged batch) uid = (if uid ∈ batchUids batch then 1 else 0) := by
  have hcount : (batchUids batch).count uid = if uid ∈ batchUids batch then 1 else 0 := by
    split
    · exact List.count_eq_one_of_mem hnodup (by assumption)
    · exact List.count_eq_zero_of_not_mem (by assumption)
  rw [rowCount_batchStats, rowCount_batchRmse, hcount]
  exact ⟨rfl, rfl⟩

/-- Witness for C5: a two-dataset batch; identifier 4 is processed and keys
exactly one row in each merged table, identifier 9 is absent and keys
none. -/
theorem C5_one_row_per_feature_witness :
    (rowCount (batchStatsMerged [[⟨1, -3, 2⟩, ⟨4, -7, 1⟩], [⟨2, 0, 0⟩]]) 4 =
        (if (4 : ℤ) ∈ batchUids [[⟨1, -3, 2⟩, ⟨4, -7, 1⟩], [⟨2, 0, 0⟩]] then 1 else 0) ∧
      rowCount (batchRmseMerged [[⟨1, -3, 2⟩, ⟨4, -7, 1⟩], [⟨2, 0, 0⟩]]) 4 =
        (if (4 : ℤ) ∈ batchUids [[⟨1, -3, 2⟩, ⟨4, -7, 1⟩], [⟨2, 0, 0⟩]] then 1 else 0)) ∧
      (rowCount (batchStatsMerged [[⟨1, -3, 2⟩, ⟨4, -7, 1⟩], [⟨2, 0, 0⟩]]) 9 =
        (if (9 : ℤ) ∈ batchUids [[⟨1, -3, 2⟩, ⟨4, -7, 1⟩], [⟨2, 0, 0⟩]] then 1 else 0) ∧
      rowCount (batchRmseMerged [[⟨1, -3, 2⟩, ⟨4, -7, 1⟩], [⟨2, 0, 0⟩]]) 9 =
        (if (9 : ℤ) ∈ batchUids [[⟨1, -3, 2⟩, ⟨4, -7, 1⟩], [⟨2, 0, 0⟩]] then 1 else 0)) :=
  ⟨C5_one_row_per_feature [[⟨1, -3, 2⟩, ⟨4, -7, 1⟩], [⟨2, 0, 0⟩]] (by decide) 4,
    C5_one_row_per_feature [[⟨1, -3, 2⟩, ⟨4, -7, 1⟩], [⟨2, 0, 0⟩]] (by decide) 9⟩

/-! ## Identifier-attribute validation (or its absence)

The script opens a cursor over the buffered dataset (line 134), reads the
identifier positionally (`fieldnames[IDattribute]`, line 138) and issues the
attribute query `"UniqueID" = rowclean` per feature (lines 184-186, 263).
Nothing validates the attribute before the buffer stage, and nothing ever
checks that its values are unique. -/

/-- An input polygon dataset: base name, attribute-table field names and the
identifier values of its rows. -/
structure VectorDataset where
  baseName : String
  fields : List String
  rowIds : List ℤ

/-- Engine calls of the per-dataset pipeline, in execution order. -/
inductive StageAct
  | bufferCall (dataset : String)
  | clipCall (uid : ℤ)
  | maskCall (uid : ℤ)
  | reconCall (uid : ℤ)
  | statsCall (uid : ℤ)
  deriving DecidableEq

/-- The engine error raised by the attribute selection when the queried
field does not exist. -/
def missingFieldError : String := "ERROR 000728: Field UniqueID does not exist"

/-- The per-feature loop of Steps 2-8: for each row in order, the DEM is
clipped and converted to points (lines 155-167); the attribute selection
`"UniqueID" = rowclean` (lines 184-186) then fails if the dataset has no
UniqueID field, else masking, reconstruction and statistics follow.  No
check of identifier uniqueness exists anywhere. -/
def runFeatureLoop (fields : List String) : List ℤ → List StageAct × Except String Unit
  | [] => ([], Except.ok ())
  | uid :: rest =>
    if "UniqueID" ∈ fields then
      let next := runFeatureLoop fields rest
      ([StageAct.clipCall uid, StageAct.maskCall uid, StageAct.reconCall uid,
        StageAct.statsCall uid] ++ next.1, next.2)
    else
      ([StageAct.clipCall uid], Except.error missingFieldError)

/-- Steps 1-8 for one dataset: the buffer call (line 108) always runs first,
then the feature loop; there is no up-front validation of the identifier
attribute before processing begins. -/
def runDataset (ds : VectorDataset) : List StageAct × Except String Unit :=
  let loop := runFeatureLoop ds.fields ds.rowIds
  (StageAct.bufferCall ds.baseName :: loop.1, loop.2)

/-- C7 counterexample: a dataset whose identifier values are not unique (7
appears twice) runs to completion with no failure at all, and a dataset
lacking the UniqueID attribute fails only after its buffer stage and the
first feature's clip have already executed — there is no up-front
validation. -/
theorem C7_counterexample :
    (runDataset ⟨"SlumpsA", ["FID", "Shape", "Area", "UniqueID"], [7, 7]⟩).2 =
        Except.ok () ∧
      runDataset ⟨"SlumpsB", ["FID", "Shape"], [3, 4]⟩ =
        ([StageAct.bufferCall "SlumpsB", StageAct.clipCall 3],
          Except.error missingFieldError) := by
  constructor
  · rfl
  · rfl

/-- C7 amended: the feature iterator performs no validation of the
unique-identifier attribute: when the attribute exists the dataset always
runs to completion, its identifier values unique or not; when the attribute
is absent, the failure surfaces mid-run, after the dataset has been buffered
and the first feature clipped. -/
theorem C7_no_upfront_validation (ds : VectorDataset) :
    ("UniqueID" ∈ ds.fields → (runDataset ds).2 = Except.ok ()) ∧
      ("UniqueID" ∉ ds.fields → ∀ uid rest, ds.rowIds = uid :: rest →
        runDataset ds = ([StageAct.bufferCall ds.baseName, StageAct.clipCall uid],
          Except.error missingFieldError)) := by
  constructor
  · intro hf
    suffices h : ∀ ids, (runFeatureLoop ds.fields ids).2 = Except.ok () by
      simpa [runDataset] using h ds.rowIds
    intro ids
    induction ids with
    | nil => rfl
    | cons uid rest ih => simp [runFeatureLoop, hf, ih]
  · intro hf uid rest hrow
    simp [runDataset, hrow, runFeatureLoop, hf]

/-- Witness for C7 amended: a dataset with duplicate identifiers completes,
and a dataset without the attribute fails only after buffering and the first
clip. -/
theorem C7_no_upfront_validation_witness :
    (runDataset ⟨"SlumpsC", ["FID", "UniqueID"], [5, 5, 5]⟩).2 = Except.ok () ∧
      runDataset ⟨"SlumpsD", ["FID"], [8, 9]⟩ =
        ([StageAct.bufferCall "SlumpsD", StageAct.clipCall 8],
          Except.error missingFieldError) :=
  ⟨(C7_no_upfront_validation ⟨"SlumpsC", ["FID", "UniqueID"], [5, 5, 5]⟩).1 (by decide),
    (C7_no_upfront_validation ⟨"SlumpsD", ["FID"], [8, 9]⟩).2 (by decide) 8 [9] rfl⟩

/-! ## Artifact lifecycle trace (C9)

The working point cloud of a feature lives in the in-memory workspace
(`postpointsDEMoutput`, line 164); it is created by `RasterToPoint_conversion`
(line 167), consumed through Steps 4-5, deleted by `Delete_management`
immediately after `TinRaster_3d` (line 219), and its name is feature-scoped
via `slumpname`. -/

/-- Pipeline stages owning per-feature artifacts. -/
inductive ArtifactStage
  | clipDEM
  | pointsPost
  | predisTIN
  | predisDEM
  | dod
  | zsTable
  | dodsq
  | rmseTable
  deriving DecidableEq

/-- A per-feature artifact, identified by dataset base name, feature
identifier and owning stage (the stages map one-to-one onto the suffixes fed
to `artifactFileName`). -/
structure ArtifactId where
  base : String
  uid : ℤ
  stage : ArtifactStage
  deriving DecidableEq

/-- An event of the execution trace touching one artifact. -/
inductive TraceEv
  | createArt (a : ArtifactId)
  | useArt (a : ArtifactId)
  | deleteArt (a : ArtifactId)
  deriving DecidableEq

/-- The artifact an event touches. -/
def TraceEv.artifact : TraceEv → ArtifactId
  | TraceEv.createArt a => a
  | TraceEv.useArt a => a
  | TraceEv.deleteArt a => a

/-- Artifact events of one feature's loop body (Steps 2-8, lines 135-315), in
program order: clip (line 155), raster-to-point (line 167), masking
(lines 180-190), TIN construction (line 217), rasterization (line 218),
point-cloud deletion (line 219), difference (lines 236-237), zonal statistics
(line 269), squaring (lines 293-294) and RMSE statistics (line 312). -/
def featureTrace (base : String) (uid : ℤ) : List TraceEv :=
  [TraceEv.createArt ⟨base, uid, ArtifactStage.clipDEM⟩,
   TraceEv.useArt ⟨base, uid, ArtifactStage.clipDEM⟩,
   TraceEv.createArt ⟨base, uid, ArtifactStage.pointsPost⟩,
   TraceEv.useArt ⟨base, uid, ArtifactStage.pointsPost⟩,
   TraceEv.useArt ⟨base, uid, ArtifactStage.pointsPost⟩,
   TraceEv.createArt ⟨base, uid, ArtifactStage.predisTIN⟩,
   TraceEv.useArt ⟨base, uid, ArtifactStage.predisTIN⟩,
   TraceEv.createArt ⟨base, uid, ArtifactStage.predisDEM⟩,
   TraceEv.deleteArt ⟨base, uid, ArtifactStage.pointsPost⟩,
   TraceEv.useArt ⟨base, uid, ArtifactStage.clipDEM⟩,
   TraceEv.useArt ⟨base, uid, ArtifactStage.predisDEM⟩,
   TraceEv.createArt ⟨base, uid, ArtifactStage.dod⟩,
   TraceEv.useArt ⟨base, uid, ArtifactStage.dod⟩,
   TraceEv.createArt ⟨base, uid, ArtifactStage.zsTable⟩,
   TraceEv.useArt ⟨base, uid, ArtifactStage.dod⟩,
   TraceEv.createArt ⟨base, uid, ArtifactStage.dodsq⟩,
   TraceEv.useArt ⟨base, uid, ArtifactStage.dodsq⟩,
   TraceEv.createArt ⟨base, uid, ArtifactStage.rmseTable⟩]

/-- C9: the feature's working point-cloud artifact is deleted right after its
surface reconstruction completes (the reconstructed raster is created within
the events preceding the delete), no later event of the feature's own trace
references it, and no event of any other feature's trace references it. -/
theorem C9_point_cloud_torn_down (base : String) (uid uid' : ℤ) (hne : uid' ≠ uid) :
    (∃ pre post,
        featureTrace base uid =
          pre ++ TraceEv.deleteArt ⟨base, uid, ArtifactStage.pointsPost⟩ :: post ∧
        TraceEv.createArt ⟨base, uid, ArtifactStage.predisDEM⟩ ∈ pre ∧
        ∀ e ∈ post, e.artifact ≠ ⟨base, uid, ArtifactStage.pointsPost⟩) ∧
      ∀ e ∈ featureTrace base uid', e.artifact ≠ ⟨base, uid, ArtifactStage.pointsPost⟩ := by
  constructor
  · refine ⟨[TraceEv.createArt ⟨base, uid, ArtifactStage.clipDEM⟩,
      TraceEv.useArt ⟨base, uid, ArtifactStage.clipDEM⟩,
      TraceEv.createArt ⟨base, uid, ArtifactStage.pointsPost⟩,
      TraceEv.useArt ⟨base, uid, ArtifactStage.pointsPost⟩,
      TraceEv.useArt ⟨base, uid, ArtifactStage.pointsPost⟩,
      TraceEv.createArt ⟨base, uid, ArtifactStage.predisTIN⟩,
      TraceEv.useArt ⟨base, uid, ArtifactStage.predisTIN⟩,
      TraceEv.createArt ⟨base, uid, ArtifactStage.predisDEM⟩],
      [TraceEv.useArt ⟨base, uid, ArtifactStage.clipDEM⟩,
      TraceEv.useArt ⟨base, uid, ArtifactStage.predisDEM⟩,
      TraceEv.createArt ⟨base, uid, ArtifactStage.dod⟩,
      TraceEv.useArt ⟨base, uid, ArtifactStage.dod⟩,
      TraceEv.createArt ⟨base, uid, ArtifactStage.zsTable⟩,
      TraceEv.useArt ⟨base, uid, ArtifactStage.dod⟩,
      TraceEv.createArt ⟨base, uid, ArtifactStage.dodsq⟩,
      TraceEv.useArt ⟨base, uid, ArtifactStage.dodsq⟩,
      TraceEv.createArt ⟨base, uid, ArtifactStage.rmseTable⟩], rfl, by simp, ?_⟩
    intro e he
    fin_cases he <;> simp [TraceEv.artifact]
  · intro e he hEq
    have huid : e.artifact.uid = uid' := by fin_cases he <;> rfl
    rw [hEq] at huid
    exact hne huid.symm

/-- Witness for C9 at dataset "SlumpsA", features 1 and 2. -/
theorem C9_point_cloud_torn_down_witness :
    (∃ pre post,
        featureTrace "SlumpsA" 1 =
          pre ++ TraceEv.deleteArt ⟨"SlumpsA", 1, ArtifactStage.pointsPost⟩ :: post ∧
        TraceEv.createArt ⟨"SlumpsA", 1, ArtifactStage.predisDEM⟩ ∈ pre ∧
        ∀ e ∈ post, e.artifact ≠ ⟨"SlumpsA", 1, ArtifactStage.pointsPost⟩) ∧
      ∀ e ∈ featureTrace "SlumpsA" 2,
        e.artifact ≠ ⟨"SlumpsA", 1, ArtifactStage.pointsPost⟩ :=
  C9_point_cloud_torn_down "SlumpsA" 1 2 (by decide)

/-! ## Batch-level merged table names (C10)

`desc` is (re)assigned inside the dataset loop (line 105); the names of the
two cross-dataset merged tables (lines 406, 427) are built from `desc` after
the loop ends, hence from the last dataset enumerated. -/

/-- The loop-carried `desc` base name: assigned anew in each dataset
iteration, `none` when the loop never ran. -/
def finalDescBaseName (baseNames : List String) : Option String :=
  baseNames.foldl (fun _ b => some b) none

/-- Step 11 (lines 406-407): file name of the cross-dataset merged
area/volume table. -/
def fsTablename (baseNames : List String) : Option String :=
  (finalDescBaseName baseNames).map fun b => b ++ "_FinalStatistics_merged" ++ ".dbf"

/-- Step 12 (lines 427-428): file name of the cross-dataset merged RMSE
table. -/
def fmrmseTablename (baseNames : List String) : Option String :=
  (finalDescBaseName baseNames).map fun b => b ++ "_FinalRMSE_merged" ++ ".dbf"

theorem finalDescBaseName_getLast :
    ∀ (baseNames : List String) (h : baseNames ≠ []),
      finalDescBaseName baseNames = some (baseNames.getLast h) := by
  have key : ∀ (l : List String) (init : Option String) (h : l ≠ []),
      l.foldl (fun _ b => some b) init = some (l.getLast h) := by
    intro l
    induction l with
    | nil => intro init h; exact absurd rfl h
    | cons b rest ih =>
      intro init h
      cases rest with
      | nil => rfl
      | cons c cs =>
        rw [List.foldl_cons, ih (some b) (by simp)]
        exact congrArg some (List.getLast_cons (by simp : (c :: cs) ≠ [])).symm
  intro baseNames h
  exact key baseNames none h

/-- C10: for every run with at least one dataset, the file names of the two
batch-level merged output tables embed the base name of the last dataset
enumerated: they equal that base name concatenated with
"_FinalStatistics_merged.dbf" and "_FinalRMSE_merged.dbf" respectively, so
the batch-level output names depend on the dataset enumeration order. -/
theorem C10_merged_names_use_last_dataset (baseNames : List String)
    (h : baseNames ≠ []) :
    fsTablename baseNames =
        some (baseNames.getLast h ++ "_FinalStatistics_merged" ++ ".dbf") ∧
      fmrmseTablename baseNames =
        some (baseNames.getLast h ++ "_FinalRMSE_merged" ++ ".dbf") := by
  rw [fsTablename, fmrmseTablename, finalDescBaseName_getLast baseNames h]
  exact ⟨rfl, rfl⟩

/-- Witness for C10: a two-dataset batch; both merged names embed the second
(last) dataset's base name. -/
theorem C10_merged_names_use_last_dataset_witness :
    fsTablename ["SlumpsA", "SlumpsB"] =
        some ("SlumpsB" ++ "_FinalStatistics_merged" ++ ".dbf") ∧
      fmrmseTablename ["SlumpsA", "SlumpsB"] =
        some ("SlumpsB" ++ "_FinalRMSE_merged" ++ ".dbf") :=
  C10_merged_names_use_last_dataset ["SlumpsA", "SlumpsB"] (by decide)

end RTSAreaVolume
